import Mathlib

/-
Verification development for the airlines-demo booking core.

The definitions below are a shallow embedding of the TypeScript sources:
  * src/lib/validation.ts        (validation engine and domain validators)
  * src/components/BookingFlow.tsx (booking workflow state machine)
JavaScript regular expressions are embedded as terms of a small regex
language with a Brzozowski-derivative matcher; JavaScript Date semantics
(parsing of YYYY-MM-DD strings as UTC midnight, local start-of-day,
getFullYear) are embedded with explicit civil-calendar arithmetic over
minutes-since-epoch, parametrised by the environment timezone offset
(tz, in minutes, with the JavaScript getTimezoneOffset sign convention:
local time = UTC time - tz, so tz is positive west of UTC).
-/

/-! ## JavaScript string primitives -/

/-- Truthiness of a JavaScript string: every string except the empty one. -/
def jsTruthy (s : String) : Bool := s != ""

/-- Characters matched by the JavaScript regex class backslash-s
(whitespace), also the set trimmed by String.prototype.trim. -/
def isJsSpace (c : Char) : Bool :=
  c == ' ' || c == '\t' || c == '\n' || c == '\r' || c == '\x0b' || c == '\x0c' ||
  c == '\u00a0' || c == '\u1680' || ('\u2000' ≤ c && c ≤ '\u200a') ||
  c == '\u2028' || c == '\u2029' || c == '\u202f' || c == '\u205f' ||
  c == '\u3000' || c == '\ufeff'

/-- Embedding of JavaScript String.prototype.trim. -/
def jsTrim (s : String) : String :=
  ⟨((s.data.dropWhile isJsSpace).reverse.dropWhile isJsSpace).reverse⟩

/-- Embedding of value.replace with the whitespace class and empty
replacement: drops every whitespace character. -/
def stripJsSpace (s : String) : String :=
  ⟨s.data.filter (fun c => !isJsSpace c)⟩

/-! ## Regular expressions (Brzozowski derivatives)

JavaScript regex literals from the source are embedded as terms of this
language; all patterns in the source are anchored on both sides, so
pattern.test is whole-string matching. -/

inductive Re where
  | emp : Re
  | eps : Re
  | cls : (Char → Bool) → Re
  | cat : Re → Re → Re
  | alt : Re → Re → Re
  | star : Re → Re

def Re.nullable : Re → Bool
  | .emp => false
  | .eps => true
  | .cls _ => false
  | .cat a b => a.nullable && b.nullable
  | .alt a b => a.nullable || b.nullable
  | .star _ => true

def Re.deriv (c : Char) : Re → Re
  | .emp => .emp
  | .eps => .emp
  | .cls p => if p c then .eps else .emp
  | .cat a b =>
      if a.nullable then .alt (.cat (a.deriv c) b) (b.deriv c)
      else .cat (a.deriv c) b
  | .alt a b => .alt (a.deriv c) (b.deriv c)
  | .star a => .cat (a.deriv c) (.star a)

/-- Whole-string matching, as regex.test on an anchored pattern. -/
def Re.test (r : Re) (s : String) : Bool :=
  (s.data.foldl (fun r c => r.deriv c) r).nullable

def reChar (c : Char) : Re := .cls (fun x => x == c)

/-- One or more repetitions (regex +). -/
def rePlus (r : Re) : Re := .cat r (.star r)

/-- Zero or one repetition (regex ?). -/
def reOpt (r : Re) : Re := .alt .eps r

/-- Exactly n repetitions (regex counted repetition). -/
def reRep (r : Re) : Nat → Re
  | 0 => .eps
  | n + 1 => .cat r (reRep r n)

/-- At most n repetitions. -/
def reUpTo (r : Re) : Nat → Re
  | 0 => .eps
  | n + 1 => .alt .eps (.cat r (reUpTo r n))

/-- Between lo and lo+extra repetitions. -/
def reBetween (r : Re) (lo extra : Nat) : Re := .cat (reRep r lo) (reUpTo r extra)

/-- At least lo repetitions. -/
def reAtLeast (r : Re) (lo : Nat) : Re := .cat (reRep r lo) (.star r)

def isAsciiUpper (c : Char) : Bool := 'A' ≤ c && c ≤ 'Z'

def isDigitChar (c : Char) : Bool := '0' ≤ c && c ≤ '9'

/-- Class of the email pattern atoms: anything but whitespace and @. -/
def emailAtomChar (c : Char) : Bool := !isJsSpace c && c != '@'

/-- Class inside the phone pattern: digits, whitespace, hyphen, parens. -/
def phoneClassChar (c : Char) : Bool :=
  isDigitChar c || isJsSpace c || c == '-' || c == '(' || c == ')'

/-! ## validationSchemas (validation.ts lines 14-57) -/

/-- Airport code pattern from the source: three uppercase letters. -/
def airportCodePattern : Re := reRep (.cls isAsciiUpper) 3

def airportCodeMessage : String :=
  "Airport code must be a 3-letter IATA code (e.g., JFK, LAX)"

/-- Flight number pattern from the source (validation.ts line 23): exactly
TWO uppercase letters followed by one to four digits. -/
def flightNumberPattern : Re :=
  .cat (reRep (.cls isAsciiUpper) 2) (reBetween (.cls isDigitChar) 1 3)

def flightNumberMessage : String :=
  "Flight number must be airline code followed by 1-4 digits (e.g., AA123)"

/-- Date pattern: four digits, hyphen, two digits, hyphen, two digits. -/
def datePattern : Re :=
  .cat (reRep (.cls isDigitChar) 4)
    (.cat (reChar '-')
      (.cat (reRep (.cls isDigitChar) 2)
        (.cat (reChar '-') (reRep (.cls isDigitChar) 2))))

def dateMessage : String := "Date must be in YYYY-MM-DD format"

/-- Email pattern: nonempty runs of non-space non-@ characters around a
single @, with a dot splitting the part after the @. -/
def emailPattern : Re :=
  .cat (rePlus (.cls emailAtomChar))
    (.cat (reChar '@')
      (.cat (rePlus (.cls emailAtomChar))
        (.cat (reChar '.') (rePlus (.cls emailAtomChar)))))

def emailMessage : String := "Please enter a valid email address"

/-- Phone pattern: optional leading plus, then at least ten characters
drawn from digits, whitespace, hyphens and parentheses. -/
def phonePattern : Re := .cat (reOpt (reChar '+')) (reAtLeast (.cls phoneClassChar) 10)

def phoneMessage : String := "Please enter a valid phone number"

def passengersMessage : String := "Passenger count must be between 1 and 9"

def priceMessage : String := "Price must be a positive number"

/-! ## Civil calendar arithmetic (JavaScript Date model)

Instants are minutes since the Unix epoch (Int); days are civil day
numbers since the epoch. daysFromCivil and civilFromDays are the standard
proleptic-Gregorian conversions. -/

structure CivilDate where
  year : Int
  month : Int
  day : Int
deriving Repr, DecidableEq

def daysFromCivil (y m d : Int) : Int :=
  let yy := if m ≤ 2 then y - 1 else y
  let era := Int.fdiv yy 400
  let yoe := yy - era * 400
  let mp := if m > 2 then m - 3 else m + 9
  let doy := Int.fdiv (153 * mp + 2) 5 + d - 1
  let doe := yoe * 365 + Int.fdiv yoe 4 - Int.fdiv yoe 100 + doy
  era * 146097 + doe - 719468

def civilFromDays (z0 : Int) : CivilDate :=
  let z := z0 + 719468
  let era := Int.fdiv z 146097
  let doe := z - era * 146097
  let yoe := Int.fdiv (doe - Int.fdiv doe 1460 + Int.fdiv doe 36524 - Int.fdiv doe 146096) 365
  let y := yoe + era * 400
  let doy := doe - (365 * yoe + Int.fdiv yoe 4 - Int.fdiv yoe 100)
  let mp := Int.fdiv (5 * doy + 2) 153
  let d := doy - Int.fdiv (153 * mp + 2) 5 + 1
  let m := if mp < 10 then mp + 3 else mp - 9
  { year := if m ≤ 2 then y + 1 else y, month := m, day := d }

def isLeapYear (y : Int) : Bool := (y % 4 == 0 && y % 100 != 0) || y % 400 == 0

def daysInMonth (y m : Int) : Int :=
  if m == 2 then (if isLeapYear y then 29 else 28)
  else if m == 4 || m == 6 || m == 9 || m == 11 then 30
  else 31

/-- Validity of new Date on a string already matching the YYYY-MM-DD
pattern: the month must be 1-12 and the day within the month. -/
def jsDateValid (y m d : Int) : Bool :=
  1 ≤ m && m ≤ 12 && 1 ≤ d && d ≤ daysInMonth y m

def digitVal (c : Char) : Int := Int.ofNat c.toNat - 48

/-- Field extraction from a YYYY-MM-DD string; only consulted on strings
that already match datePattern, which forces the ten-character shape. -/
def parseCivil (s : String) : CivilDate :=
  match s.data with
  | [y1, y2, y3, y4, _, m1, m2, _, d1, d2] =>
    { year := digitVal y1 * 1000 + digitVal y2 * 100 + digitVal y3 * 10 + digitVal y4,
      month := digitVal m1 * 10 + digitVal m2,
      day := digitVal d1 * 10 + digitVal d2 }
  | _ => { year := 0, month := 0, day := 0 }

def CivilDate.toDays (cd : CivilDate) : Int := daysFromCivil cd.year cd.month cd.day

/-- Civil day number denoted by a YYYY-MM-DD string. -/
def parseDay (s : String) : Int := (parseCivil s).toDays

/-- Instant (minutes since epoch) of new Date on a YYYY-MM-DD string:
UTC midnight of the denoted day. -/
def parseInstant (s : String) : Int := parseDay s * 1440

/-- The local civil day containing the instant now, in a timezone whose
getTimezoneOffset is tz minutes (local = UTC - tz). -/
def jsLocalDay (now tz : Int) : Int := Int.fdiv (now - tz) 1440

/-- The instant produced by setHours(0,0,0,0) on new Date at now: local
midnight of the current local day, expressed in UTC minutes. -/
def startOfLocalDayUtc (now tz : Int) : Int := jsLocalDay now tz * 1440 + tz

/-- getFullYear of the instant t observed in the tz environment. -/
def jsGetFullYear (t tz : Int) : Int := (civilFromDays (Int.fdiv (t - tz) 1440)).year

/-! ## Validation engine (validation.ts lines 7-139) -/

structure ValidationResult where
  isValid : Bool
  errors : List String
  warnings : List String := []
deriving Repr, DecidableEq

namespace validators

/-- Embedding of validators.required on string inputs (the only inputs it
receives from the embedded callers): non-null is automatic, so the check
is that the trimmed string is nonempty. -/
def required (value : String) : ValidationResult :=
  let ok := jsTruthy (jsTrim value)
  { isValid := ok, errors := if ok then [] else ["This field is required"] }

def pattern (value : String) (p : Re) (message : String) : ValidationResult :=
  let ok := p.test value
  { isValid := ok, errors := if ok then [] else [message] }

/-- Embedding of validators.range on integer inputs; the Number(value)
NaN branch cannot arise for an Int. -/
def range (value : Int) (mn mx : Option Int) (message : Option String) : ValidationResult :=
  let ok := (match mn with | none => true | some m => decide (m ≤ value)) &&
            (match mx with | none => true | some m => decide (value ≤ m))
  { isValid := ok,
    errors := if ok then [] else
      [message.getD ("Value must be between " ++ toString mn ++ " and " ++ toString mx)] }

/-- Embedding of validators.date: the YYYY-MM-DD pattern, then validity of
new Date on the string. -/
def date (value : String) : ValidationResult :=
  let patternResult := pattern value datePattern dateMessage
  if !patternResult.isValid then patternResult
  else
    let cd := parseCivil value
    let isValidDate := jsDateValid cd.year cd.month cd.day
    { isValid := isValidDate,
      errors := if isValidDate then [] else ["Please enter a valid date"] }

/-- Embedding of validators.futureDate at the instant now (minutes since
epoch) in a timezone with getTimezoneOffset tz: the input must pass date,
and its UTC-midnight instant must be at or after local midnight of the
current local day. -/
def futureDate (value : String) (now tz : Int) : ValidationResult :=
  let dateResult := date value
  if !dateResult.isValid then dateResult
  else
    let isFuture := decide (startOfLocalDayUtc now tz ≤ parseInstant value)
    { isValid := isFuture,
      errors := if isFuture then [] else ["Please select a future date"] }

end validators

/-! ## Domain validators (validation.ts lines 142-299) -/

/-- The argument shape of airlinesValidators.passenger. -/
structure PassengerValidand where
  firstName : String
  lastName : String
  email : String
  phone : Option String
  dateOfBirth : String
deriving Repr, DecidableEq

namespace airlinesValidators

/-- Embedding of airlinesValidators.passenger, parametrised by the current
instant now and the timezone offset tz (for the getFullYear-based age
check). Errors are accumulated in source order. -/
def passenger (now tz : Int) (data : PassengerValidand) : ValidationResult :=
  let e1 := if (validators.required data.firstName).isValid then [] else ["First name is required"]
  let e2 := if (validators.required data.lastName).isValid then [] else ["Last name is required"]
  let e3 := (validators.pattern data.email emailPattern emailMessage).errors
  let e4 := match data.phone with
    | some ph => if jsTruthy ph then (validators.pattern ph phonePattern phoneMessage).errors else []
    | none => []
  let dobResult := validators.date data.dateOfBirth
  let e5 := dobResult.errors
  let e6 :=
    if dobResult.isValid then
      let age := jsGetFullYear now tz - jsGetFullYear (parseInstant data.dateOfBirth) tz
      if age < 0 || age > 120 then ["Please enter a valid date of birth"] else []
    else []
  let errors := e1 ++ e2 ++ e3 ++ e4 ++ e5 ++ e6
  { isValid := errors.isEmpty, errors := errors }

/-- The argument shape of airlinesValidators.flight; prices are modelled
as integers (the claims under study do not concern fractional prices). -/
structure FlightValidand where
  flightNumber : String
  departureAirport : String
  departureTime : String
  arrivalAirport : String
  arrivalTime : String
  price : Int
deriving Repr, DecidableEq

/-- Embedding of airlinesValidators.flight. The host primitive new Date on
arbitrary timestamp strings is abstracted as the parameter jsParseTime
(none models an Invalid Date, some t an instant). Errors are accumulated
in source order. -/
def flight (jsParseTime : String → Option Int) (data : FlightValidand) : ValidationResult :=
  let e1 := (validators.pattern data.flightNumber flightNumberPattern flightNumberMessage).errors
  let e2 := (validators.pattern data.departureAirport airportCodePattern
    ("Departure airport: " ++ airportCodeMessage)).errors
  let e3 := (validators.pattern data.arrivalAirport airportCodePattern
    ("Arrival airport: " ++ airportCodeMessage)).errors
  let dep := jsParseTime data.departureTime
  let arr := jsParseTime data.arrivalTime
  let e4 := if dep.isNone then ["Invalid departure time format"] else []
  let e5 := if arr.isNone then ["Invalid arrival time format"] else []
  let e6 := match dep, arr with
    | some dt, some ar => if ar ≤ dt then ["Arrival time must be after departure time"] else []
    | _, _ => []
  let e7 := (validators.range data.price (some 0) none (some priceMessage)).errors
  let errors := e1 ++ e2 ++ e3 ++ e4 ++ e5 ++ e6 ++ e7
  { isValid := errors.isEmpty, errors := errors }

end airlinesValidators

/-! ## Booking data model (types/booking.ts) -/

/-- Passenger record; title and traveller type are runtime strings drawn
from the union types of the source. -/
structure Passenger where
  id : String
  firstName : String
  lastName : String
  dateOfBirth : String
  email : Option String
  phone : Option String
  title : String
  type : String
deriving Repr, DecidableEq

structure ContactInfo where
  email : String
  phone : String
deriving Repr, DecidableEq

/-- The booking-data aggregate held by the workflow (the BookingFlow
component keeps payment details and special requests in separate state
slots, so they are not part of this record). -/
structure BookingData where
  passengers : List Passenger
  contactInfo : ContactInfo
deriving Repr, DecidableEq

structure BillingAddress where
  street : String
  city : String
  state : String
  zipCode : String
  country : String
deriving Repr, DecidableEq

structure PaymentDetails where
  cardNumber : String
  expiryMonth : String
  expiryYear : String
  cvv : String
  cardholderName : String
  billingAddress : BillingAddress
deriving Repr, DecidableEq

structure FlightDetails where
  flightNumber : String
  departureDate : String
  departureTime : String
  arrivalTime : String
  fromCode : String
  toCode : String
  airline : String
deriving Repr, DecidableEq

structure BookingConfirmation where
  bookingReference : String
  confirmationNumber : String
  bookingDate : String
  totalAmount : String
  status : String
  passengers : List Passenger
  flightDetails : FlightDetails
deriving Repr, DecidableEq

inductive BookingStep where
  | flightSelected
  | passengerDetails
  | payment
  | confirmation
deriving Repr, DecidableEq

/-- Position of a step in the forward order of the workflow. -/
def stepIdx : BookingStep → Nat
  | .flightSelected => 0
  | .passengerDetails => 1
  | .payment => 2
  | .confirmation => 3

/-! ## External flight offer (lib/flight-api shape used by BookingFlow) -/

structure Segment where
  carrierCode : String
  number : String
  departureIata : String
  departureAt : String
  arrivalIata : String
  arrivalAt : String
deriving Repr, DecidableEq

structure Itinerary where
  duration : String
  segments : List Segment
deriving Repr, DecidableEq

structure FlightOffer where
  itineraries : List Itinerary
  priceBase : String
  priceTotal : String
deriving Repr, DecidableEq

/-! ## Workflow state machine (components/BookingFlow.tsx) -/

/-- The full mutable state of one BookingFlow instance: the five useState
slots of the component. -/
structure FlowState where
  currentStep : BookingStep
  bookingData : BookingData
  paymentDetails : PaymentDetails
  confirmation : Option BookingConfirmation
  isProcessing : Bool
  specialRequests : String
deriving Repr, DecidableEq

/-- Environment of one booking attempt: the selected flight plus the host
primitives consumed by processBooking (the two random base-36 tokens, the
current ISO timestamp and the toLocaleTimeString formatter). -/
structure BookingEnv where
  selectedFlight : FlightOffer
  rand8 : String
  rand6 : String
  nowIso : String
  fmtTime : String → String

/-- ASCII uppercasing of one character (String.prototype.toUpperCase on
the base-36 alphabet actually produced by the token source). -/
def jsCharUpper (c : Char) : Char :=
  if 97 ≤ c.toNat && c.toNat ≤ 122 then Char.ofNat (c.toNat - 32) else c

def jsToUpperCase (s : String) : String := ⟨s.data.map jsCharUpper⟩

/-- value.split with the separator T, first component. -/
def jsSplitTHead (s : String) : String := ⟨s.data.takeWhile (fun c => c != 'T')⟩

/-- The booking reference built at BookingFlow.tsx line 134: the literal
prefix AD followed by the uppercased random token. -/
def mkBookingReference (rand8 : String) : String := "AD" ++ jsToUpperCase rand8

/-- The confirmation number built at BookingFlow.tsx line 135. -/
def mkConfirmationNumber (carrierCode rand6 : String) : String :=
  carrierCode ++ jsToUpperCase rand6

/-- itineraries[0].segments[0] as accessed by processBooking; none models
the TypeError thrown when the offer has no itinerary or segment. -/
def firstSegment (offer : FlightOffer) : Option Segment :=
  offer.itineraries.head?.bind (fun it => it.segments.head?)

/-- The BookingConfirmation literal built inside processBooking
(BookingFlow.tsx lines 132-149). -/
def mkBookingConfirmation (env : BookingEnv) (bd : BookingData) : Option BookingConfirmation :=
  match firstSegment env.selectedFlight with
  | none => none
  | some segment => some
    { bookingReference := mkBookingReference env.rand8,
      confirmationNumber := mkConfirmationNumber segment.carrierCode env.rand6,
      bookingDate := env.nowIso,
      totalAmount := env.selectedFlight.priceTotal,
      status := "confirmed",
      passengers := bd.passengers,
      flightDetails :=
        { flightNumber := segment.carrierCode ++ segment.number,
          departureDate := jsSplitTHead segment.departureAt,
          departureTime := env.fmtTime segment.departureAt,
          arrivalTime := env.fmtTime segment.arrivalAt,
          fromCode := segment.departureIata,
          toCode := segment.arrivalIata,
          airline := segment.carrierCode ++ " Airlines" } }

/-- Embedding of handlePassengerUpdate (BookingFlow.tsx lines 81-101):
replace the passenger at the index; for the primary passenger (0) also
re-derive the contact info from the new record. -/
def handlePassengerUpdate (bd : BookingData) (index : Nat) (passenger : Passenger) : BookingData :=
  let updatedPassengers := bd.passengers.set index passenger
  if index == 0 then
    { bd with
      passengers := updatedPassengers,
      contactInfo := { email := passenger.email.getD "", phone := passenger.phone.getD "" } }
  else
    { bd with passengers := updatedPassengers }

/-- Embedding of validatePassengerDetails (BookingFlow.tsx lines 103-110). -/
def validatePassengerDetails (bd : BookingData) : Bool :=
  bd.passengers.all (fun passenger =>
    jsTruthy (jsTrim passenger.firstName) &&
    jsTruthy (jsTrim passenger.lastName) &&
    jsTruthy passenger.dateOfBirth &&
    jsTruthy passenger.title) &&
  jsTruthy bd.contactInfo.email && jsTruthy bd.contactInfo.phone

/-- Embedding of validatePaymentDetails (BookingFlow.tsx lines 112-123). -/
def validatePaymentDetails (pd : PaymentDetails) : Bool :=
  decide (13 ≤ (stripJsSpace pd.cardNumber).length) &&
  jsTruthy pd.expiryMonth &&
  jsTruthy pd.expiryYear &&
  decide (3 ≤ pd.cvv.length) &&
  jsTruthy (jsTrim pd.cardholderName) &&
  jsTruthy (jsTrim pd.billingAddress.street) &&
  jsTruthy (jsTrim pd.billingAddress.city) &&
  jsTruthy (jsTrim pd.billingAddress.state) &&
  jsTruthy (jsTrim pd.billingAddress.zipCode) &&
  jsTruthy pd.billingAddress.country

/-- Embedding of handleStepNavigation (BookingFlow.tsx lines 161-177).
The returned Bool records whether processBooking was invoked; the
synchronous prefix of processBooking (setIsProcessing(true)) is part of
the returned state, its asynchronous remainder is processBookingResolve. -/
def handleStepNavigation (nextStep : BookingStep) (s : FlowState) : FlowState × Bool :=
  if nextStep = .passengerDetails ∧ s.currentStep = .flightSelected then
    ({ s with currentStep := .passengerDetails }, false)
  else if nextStep = .payment ∧ s.currentStep = .passengerDetails then
    if validatePassengerDetails s.bookingData then
      ({ s with currentStep := .payment }, false)
    else (s, false)
  else if nextStep = .confirmation ∧ s.currentStep = .payment then
    if validatePaymentDetails s.paymentDetails then
      ({ s with isProcessing := true }, true)
    else (s, false)
  else (s, false)

/-- Embedding of handleBack (BookingFlow.tsx lines 179-185). -/
def handleBack (s : FlowState) : FlowState :=
  if s.currentStep = .passengerDetails then { s with currentStep := .flightSelected }
  else if s.currentStep = .payment then { s with currentStep := .passengerDetails }
  else s

/-- Whether the advance button towards the given target is rendered and
enabled: the flight-selected continue button (line 272, never disabled),
the passenger continue button (line 311, disabled unless
validatePassengerDetails), and the complete-booking button (line 342,
disabled unless validatePaymentDetails and not isProcessing). -/
def advanceEnabled (s : FlowState) (target : BookingStep) : Bool :=
  match s.currentStep, target with
  | .flightSelected, .passengerDetails => true
  | .passengerDetails, .payment => validatePassengerDetails s.bookingData
  | .payment, .confirmation => validatePaymentDetails s.paymentDetails && !s.isProcessing
  | _, _ => false

/-- An advance request as issued by the UI: the click reaches
handleStepNavigation only when the corresponding button is enabled. -/
def clickAdvance (target : BookingStep) (s : FlowState) : FlowState × Bool :=
  if advanceEnabled s target then handleStepNavigation target s else (s, false)

inductive SubmitOutcome where
  | success
  | failure
deriving Repr, DecidableEq

/-- Resolution of the awaited submission inside processBooking
(BookingFlow.tsx lines 129-158): on success the confirmation literal is
built and the step set to confirmation; on rejection (or a missing
segment) the catch block only alerts; the finally block clears the
processing flag in every case. -/
def processBookingResolve (env : BookingEnv) (o : SubmitOutcome) (s : FlowState) : FlowState :=
  match o with
  | .failure => { s with isProcessing := false }
  | .success =>
    match mkBookingConfirmation env s.bookingData with
    | none => { s with isProcessing := false }
    | some conf =>
      { s with confirmation := some conf, currentStep := .confirmation, isProcessing := false }

/-- The UI events a BookingFlow instance can receive. -/
inductive Event where
  | clickAdvance (target : BookingStep)
  | clickBack
  | updatePassenger (index : Nat) (passenger : Passenger)
  | setPayment (pd : PaymentDetails)
  | setSpecial (text : String)
  | resolve (o : SubmitOutcome)

/-- One step of the workflow machine. Passenger forms and the special
requests box are rendered only on the passenger-details step, the payment
form only on the payment step; a resolution event exists only while a
submission is outstanding. -/
def applyEvent (env : BookingEnv) (e : Event) (s : FlowState) : FlowState :=
  match e with
  | .clickAdvance target => (clickAdvance target s).1
  | .clickBack => handleBack s
  | .updatePassenger index passenger =>
    if s.currentStep = .passengerDetails then
      { s with bookingData := handlePassengerUpdate s.bookingData index passenger }
    else s
  | .setPayment pd => if s.currentStep = .payment then { s with paymentDetails := pd } else s
  | .setSpecial text =>
    if s.currentStep = .passengerDetails then { s with specialRequests := text } else s
  | .resolve o => if s.isProcessing then processBookingResolve env o s else s

/-- Whether the event starts a processBooking invocation. -/
def startsBooking (e : Event) (s : FlowState) : Bool :=
  match e with
  | .clickAdvance target => (clickAdvance target s).2
  | _ => false

/-- The initial passenger slot created at workflow start
(BookingFlow.tsx lines 29-38). -/
def initPassenger (index : Nat) : Passenger :=
  { id := "passenger-" ++ toString index,
    firstName := "", lastName := "", dateOfBirth := "",
    title := "Mr", type := "adult",
    email := if index == 0 then some "" else none,
    phone := if index == 0 then some "" else none }

def emptyPaymentDetails : PaymentDetails :=
  { cardNumber := "", expiryMonth := "", expiryYear := "", cvv := "", cardholderName := "",
    billingAddress := { street := "", city := "", state := "", zipCode := "", country := "" } }

/-- The initial state of a BookingFlow instance for a passenger count. -/
def initState (passengerCount : Nat) : FlowState :=
  { currentStep := .flightSelected,
    bookingData :=
      { passengers := (List.range passengerCount).map initPassenger,
        contactInfo := { email := "", phone := "" } },
    paymentDetails := emptyPaymentDetails,
    confirmation := none,
    isProcessing := false,
    specialRequests := "" }

/-- States reachable by a BookingFlow instance in the environment env. -/
inductive Reachable (env : BookingEnv) : FlowState → Prop where
  | init (passengerCount : Nat) : Reachable env (initState passengerCount)
  | step {s : FlowState} (e : Event) : Reachable env s → Reachable env (applyEvent env e s)

/-- The passenger-validator argument formed from an aggregate passenger
(the optional email becomes the empty string when absent). -/
def Passenger.toValidand (p : Passenger) : PassengerValidand :=
  { firstName := p.firstName, lastName := p.lastName, email := p.email.getD "",
    phone := p.phone, dateOfBirth := p.dateOfBirth }

/-! ## Concrete fixtures used by witnesses and counterexamples -/

def segEx : Segment :=
  { carrierCode := "AA", number := "123", departureIata := "JFK",
    departureAt := "2025-01-15T10:00:00Z", arrivalIata := "LAX",
    arrivalAt := "2025-01-15T14:00:00Z" }

def offerEx : FlightOffer :=
  { itineraries := [{ duration := "PT6H", segments := [segEx] }],
    priceBase := "400.00",
    priceTotal := "450.00" }

def envEx : BookingEnv :=
  { selectedFlight := offerEx,
    rand8 := "k2j4h6g8",
    rand6 := "x1y2z3",
    nowIso := "2025-10-12T12:00:00.000Z",
    fmtTime := fun s => s }

/-- The instant 2025-10-12 15:00 UTC, in minutes since the epoch. -/
def nowEx : Int := daysFromCivil 2025 10 12 * 1440 + 900

def pGood : Passenger :=
  { id := "passenger-0", firstName := "John", lastName := "Doe", dateOfBirth := "1990-01-01",
    email := some "john@x.com", phone := some "+1-555-123-4567", title := "Mr", type := "adult" }

def payGood : PaymentDetails :=
  { cardNumber := "4111 1111 1111 1111", expiryMonth := "12", expiryYear := "2030",
    cvv := "123", cardholderName := "John Doe",
    billingAddress :=
      { street := "1 Main St", city := "NYC", state := "NY", zipCode := "10001", country := "US" } }

def sAfter1 : FlowState := applyEvent envEx (.clickAdvance .passengerDetails) (initState 1)

def sAfter2 : FlowState := applyEvent envEx (.updatePassenger 0 pGood) sAfter1

def sAfter3 : FlowState := applyEvent envEx (.clickAdvance .payment) sAfter2

def sAfter4 : FlowState := applyEvent envEx (.setPayment payGood) sAfter3

/-- State in which a submission is outstanding: the payment step was
completed with valid payment data, so processBooking has started. -/
def sProc : FlowState := applyEvent envEx (.clickAdvance .confirmation) sAfter4

/-- The user presses Back while the submission is outstanding: the back
button on the payment step is not disabled during processing. -/
def sPre : FlowState := applyEvent envEx .clickBack sProc

/-! ## Spec-side predicates, counterexample inputs and auxiliary definitions -/

/-- The effect of one handlePassengerUpdate call on the whole component
state: the handler only calls setBookingData, so the payment details,
special requests, confirmation and step slots are untouched by
construction. -/
def passengerUpdateState (s : FlowState) (index : Nat) (passenger : Passenger) : FlowState :=
  { s with bookingData := handlePassengerUpdate s.bookingData index passenger }

/-- The payment guard exactly as the specification sentence words it,
reading non-blank as nonempty after trimming for every field it lists
(expiry month and year, cardholder name, the four billing-address fields
and the country). -/
def PaymentGuardClaim (pd : PaymentDetails) : Prop :=
  13 ≤ (stripJsSpace pd.cardNumber).length ∧
  jsTrim pd.expiryMonth ≠ "" ∧
  jsTrim pd.expiryYear ≠ "" ∧
  3 ≤ pd.cvv.length ∧
  jsTrim pd.cardholderName ≠ "" ∧
  jsTrim pd.billingAddress.street ≠ "" ∧
  jsTrim pd.billingAddress.city ≠ "" ∧
  jsTrim pd.billingAddress.state ≠ "" ∧
  jsTrim pd.billingAddress.zipCode ≠ "" ∧
  jsTrim pd.billingAddress.country ≠ ""

instance (pd : PaymentDetails) : Decidable (PaymentGuardClaim pd) := by
  unfold PaymentGuardClaim
  infer_instance

/-- The payment guard as the code actually checks it: expiry month, expiry
year and country are only required to be nonempty (whitespace counts as
filled), while cardholder name and the street, city, state and zip fields
are required to be nonempty after trimming. -/
def PaymentGuardAmended (pd : PaymentDetails) : Prop :=
  13 ≤ (stripJsSpace pd.cardNumber).length ∧
  pd.expiryMonth ≠ "" ∧
  pd.expiryYear ≠ "" ∧
  3 ≤ pd.cvv.length ∧
  jsTrim pd.cardholderName ≠ "" ∧
  jsTrim pd.billingAddress.street ≠ "" ∧
  jsTrim pd.billingAddress.city ≠ "" ∧
  jsTrim pd.billingAddress.state ≠ "" ∧
  jsTrim pd.billingAddress.zipCode ≠ "" ∧
  pd.billingAddress.country ≠ ""

/-- Payment details whose expiry month is a single blank: every field the
guard accepts, but the expiry month is blank rather than filled. -/
def payBlankMonth : PaymentDetails :=
  { payGood with cardNumber := "4111111111111", expiryMonth := " " }

/-- The predicate validatePassengerDetails actually enforces, spelled out:
every passenger has non-blank first and last names, a nonempty date of
birth and a nonempty title, and the contact email and phone are nonempty.
The passenger domain validator is not part of it. -/
def PassengerGuardHolds (bd : BookingData) : Prop :=
  (∀ p ∈ bd.passengers,
    jsTrim p.firstName ≠ "" ∧ jsTrim p.lastName ≠ "" ∧ p.dateOfBirth ≠ "" ∧ p.title ≠ "") ∧
  bd.contactInfo.email ≠ "" ∧ bd.contactInfo.phone ≠ ""

instance (bd : BookingData) : Decidable (PassengerGuardHolds bd) := by
  unfold PassengerGuardHolds
  infer_instance

/-- A primary passenger whose email is not a valid address but whose
fields are all filled in. -/
def pBadEmail : Passenger := { pGood with email := some "x" }

/-- A reachable passenger-details state holding that passenger. -/
def sC1 : FlowState :=
  applyEvent envEx (.updatePassenger 0 pBadEmail)
    (applyEvent envEx (.clickAdvance .passengerDetails) (initState 1))

/-- The step-change discipline the machine actually satisfies, per event:
advances leave the step unchanged or move it forward exactly one position
with the corresponding button guard passing; back moves from
passenger-details and payment exactly to the immediate predecessor and is
the identity elsewhere; data updates never change the step; a resolution
leaves the step unchanged unless it is the successful resolution of an
outstanding submission, which sets the step to confirmation from whatever
step the workflow is then on (so it can skip steps after a back press
made during processing). -/
def StepChangeSpec (env : BookingEnv) (s : FlowState) : Event → Prop
  | .clickAdvance target =>
      (applyEvent env (.clickAdvance target) s).currentStep = s.currentStep ∨
      (stepIdx (applyEvent env (.clickAdvance target) s).currentStep
          = stepIdx s.currentStep + 1 ∧
        advanceEnabled s (applyEvent env (.clickAdvance target) s).currentStep = true)
  | .clickBack =>
      (s.currentStep = .passengerDetails → (handleBack s).currentStep = .flightSelected) ∧
      (s.currentStep = .payment → (handleBack s).currentStep = .passengerDetails) ∧
      (s.currentStep = .flightSelected ∨ s.currentStep = .confirmation → handleBack s = s)
  | .updatePassenger index passenger =>
      (applyEvent env (.updatePassenger index passenger) s).currentStep = s.currentStep
  | .setPayment pd => (applyEvent env (.setPayment pd) s).currentStep = s.currentStep
  | .setSpecial text => (applyEvent env (.setSpecial text) s).currentStep = s.currentStep
  | .resolve o =>
      (applyEvent env (.resolve o) s).currentStep = s.currentStep ∨
      (o = .success ∧ s.isProcessing = true ∧
        (applyEvent env (.resolve o) s).currentStep = .confirmation)

/-- The flight-number pattern exactly as the specification sentence words
it: a 2- or 3-letter uppercase airline code followed by 1 to 4 digits.
Kept for comparison with the pattern the source actually compiles. -/
def claimedFlightNumberPattern : Re :=
  .cat (reBetween (.cls isAsciiUpper) 2 1) (reBetween (.cls isDigitChar) 1 3)

/-- A directly entered flight record with a three-letter airline code. -/
def flightEx : airlinesValidators.FlightValidand :=
  { flightNumber := "ABC123", departureAirport := "JFK",
    departureTime := "2025-01-15T10:00:00Z", arrivalAirport := "LAX",
    arrivalTime := "2025-01-15T14:00:00Z", price := 450 }

/-- A concrete host date parser for the fixture timestamps. -/
def jsParseTimeEx : String → Option Int :=
  fun s => if s = "2025-01-15T10:00:00Z" then some 600 else some 840

/-- Characters producible by Math.random().toString(36).substr(2, 8):
lowercase base-36 digits. -/
def isBase36Lower (c : Char) : Bool :=
  (48 ≤ c.toNat && c.toNat ≤ 57) || (97 ≤ c.toNat && c.toNat ≤ 122)

/-- Uppercase alphanumeric characters. -/
def isUpperAlnum (c : Char) : Bool :=
  (48 ≤ c.toNat && c.toNat ≤ 57) || (65 ≤ c.toNat && c.toNat ≤ 90)

/-! ## C9: idempotence of the passenger-update operation -/

/-- C9: applying handlePassengerUpdate twice with the same index and
passenger record yields the same aggregate as applying it once. -/
theorem C9_update_idempotent (bd : BookingData) (index : Nat) (passenger : Passenger)
    (_h : index < bd.passengers.length) :
    handlePassengerUpdate (handlePassengerUpdate bd index passenger) index passenger =
      handlePassengerUpdate bd index passenger := by
  unfold handlePassengerUpdate
  by_cases h0 : index == 0 <;> simp [h0, List.set_set]

/-- Witness for C9 at a concrete aggregate, index and record. -/
theorem C9_update_idempotent_witness :
    0 < (initState 1).bookingData.passengers.length ∧
      handlePassengerUpdate (handlePassengerUpdate (initState 1).bookingData 0 pGood) 0 pGood =
        handlePassengerUpdate (initState 1).bookingData 0 pGood :=
  ⟨by decide, C9_update_idempotent (initState 1).bookingData 0 pGood (by decide)⟩

/-! ## C10: frame property of the passenger-update operation -/

/-- C10: the passenger-update operation changes only the passenger at the
given index (plus, for index 0, the derived contact info); every other
passenger, the payment details, the special requests, the confirmation
and the current step are unchanged, and the contact info is unchanged for
indices at least 1. -/
theorem C10_update_frame (s : FlowState) (index : Nat) (passenger : Passenger) :
    (passengerUpdateState s index passenger).paymentDetails = s.paymentDetails ∧
    (passengerUpdateState s index passenger).specialRequests = s.specialRequests ∧
    (passengerUpdateState s index passenger).confirmation = s.confirmation ∧
    (passengerUpdateState s index passenger).currentStep = s.currentStep ∧
    (∀ j, j ≠ index →
      (passengerUpdateState s index passenger).bookingData.passengers[j]? =
        s.bookingData.passengers[j]?) ∧
    (index < s.bookingData.passengers.length →
      (passengerUpdateState s index passenger).bookingData.passengers[index]? = some passenger) ∧
    (1 ≤ index →
      (passengerUpdateState s index passenger).bookingData.contactInfo =
        s.bookingData.contactInfo) ∧
    (index = 0 →
      (passengerUpdateState s index passenger).bookingData.contactInfo =
        { email := passenger.email.getD "", phone := passenger.phone.getD "" }) := by
  refine ⟨rfl, rfl, rfl, rfl, ?_, ?_, ?_, ?_⟩
  · intro j hj
    have hij : index ≠ j := fun h => hj h.symm
    by_cases h0 : index = 0
    · subst h0
      simp [passengerUpdateState, handlePassengerUpdate, List.getElem?_set_ne hij]
    · simp [passengerUpdateState, handlePassengerUpdate, h0, List.getElem?_set_ne hij]
  · intro hlt
    by_cases h0 : index = 0
    · subst h0
      simp [passengerUpdateState, handlePassengerUpdate, List.getElem?_set_self hlt]
    · simp [passengerUpdateState, handlePassengerUpdate, h0, List.getElem?_set_self hlt]
  · intro h1
    have h0 : ¬(index = 0) := by omega
    simp [passengerUpdateState, handlePassengerUpdate, h0]
  · intro h0
    simp [passengerUpdateState, handlePassengerUpdate, h0]

/-- Witness for C10 at a concrete state, index and record. -/
theorem C10_update_frame_witness :
    (passengerUpdateState (initState 2) 1 pGood).bookingData.contactInfo =
        (initState 2).bookingData.contactInfo ∧
      (passengerUpdateState (initState 2) 1 pGood).paymentDetails = (initState 2).paymentDetails ∧
      (passengerUpdateState (initState 2) 1 pGood).bookingData.passengers[0]? =
        (initState 2).bookingData.passengers[0]? :=
  ⟨(C10_update_frame (initState 2) 1 pGood).2.2.2.2.2.2.1 (by decide),
   (C10_update_frame (initState 2) 1 pGood).1,
   (C10_update_frame (initState 2) 1 pGood).2.2.2.2.1 0 (by decide)⟩

/-! ## C3: characterisation of the payment guard -/

/-- C3 fails on the code: with a whitespace-only expiry month the guard
still returns true, though the claim requires a non-blank expiry month. -/
theorem C3_counterexample :
    validatePaymentDetails payBlankMonth = true ∧ ¬ PaymentGuardClaim payBlankMonth := by
  constructor
  · decide
  · decide

/-- C3 amended: the guard returns true iff the whitespace-stripped card
number has length at least 13, the expiry month, expiry year and country
are nonempty (not necessarily non-blank), the CVV has length at least 3,
and the cardholder name and the four billing-address text fields are
non-blank after trimming. -/
theorem C3_payment_guard_amended (pd : PaymentDetails) :
    validatePaymentDetails pd = true ↔ PaymentGuardAmended pd := by
  unfold validatePaymentDetails PaymentGuardAmended jsTruthy
  simp [Bool.and_eq_true, decide_eq_true_iff, bne_iff_ne, and_assoc]

/-! ## C4: submission failure preserves all entered data -/

/-- C4: when the awaited submission rejects, no confirmation is created,
the step remains payment, and the booking aggregate, payment details and
special requests are all unchanged. -/
theorem C4_failure_preserves_state (env : BookingEnv) (s : FlowState)
    (hstep : s.currentStep = .payment) :
    (applyEvent env (.resolve .failure) s).currentStep = .payment ∧
    (applyEvent env (.resolve .failure) s).confirmation = s.confirmation ∧
    (applyEvent env (.resolve .failure) s).bookingData = s.bookingData ∧
    (applyEvent env (.resolve .failure) s).paymentDetails = s.paymentDetails ∧
    (applyEvent env (.resolve .failure) s).specialRequests = s.specialRequests := by
  unfold applyEvent processBookingResolve
  by_cases hp : s.isProcessing <;> simp [hp, hstep]

/-- Witness for C4 at the concrete outstanding-submission state. -/
theorem C4_failure_preserves_state_witness :
    (applyEvent envEx (.resolve .failure) sProc).currentStep = .payment ∧
      (applyEvent envEx (.resolve .failure) sProc).confirmation = sProc.confirmation ∧
      (applyEvent envEx (.resolve .failure) sProc).bookingData = sProc.bookingData ∧
      (applyEvent envEx (.resolve .failure) sProc).paymentDetails = sProc.paymentDetails ∧
      (applyEvent envEx (.resolve .failure) sProc).specialRequests = sProc.specialRequests :=
  C4_failure_preserves_state envEx sProc (by decide)

/-! ## C2: no double submission -/

/-- C2: while a submission is outstanding, a further advance request from
the payment step is denied: the state (step and aggregate included) is
unchanged and no second processBooking invocation starts. The advance
request is embedded as the user-level event: the complete-booking button
(BookingFlow.tsx lines 342-348) is disabled while isProcessing, so the
click never reaches handleStepNavigation. -/
theorem C2_no_double_submission (env : BookingEnv) (s : FlowState) (target : BookingStep)
    (hproc : s.isProcessing = true) (hstep : s.currentStep = .payment) :
    applyEvent env (.clickAdvance target) s = s ∧
      startsBooking (.clickAdvance target) s = false := by
  unfold applyEvent startsBooking clickAdvance advanceEnabled
  cases target <;> simp [hproc, hstep]

/-- Witness for C2 at the concrete outstanding-submission state. -/
theorem C2_no_double_submission_witness :
    applyEvent envEx (.clickAdvance .confirmation) sProc = sProc ∧
      startsBooking (.clickAdvance .confirmation) sProc = false :=
  C2_no_double_submission envEx sProc .confirmation (by decide) (by decide)

/-! ## C1: the passenger-details advance guard -/

/-- C1 fails on the code: from a passenger-details state whose single
passenger fails the passenger domain validator (invalid email), the
advance request still moves the step to payment, because the code guard
never invokes the domain validator. -/
theorem C1_counterexample :
    sC1.currentStep = .passengerDetails ∧
    (applyEvent envEx (.clickAdvance .payment) sC1).currentStep = .payment ∧
    sC1.bookingData.passengers.all
      (fun p => (airlinesValidators.passenger nowEx 0 p.toValidand).isValid) = false := by
  refine ⟨by decide, by decide, by decide⟩

/-- C1 amended: from a passenger-details state the advance moves to
payment iff every passenger has non-blank first and last names, a
nonempty date of birth and title, and the contact email and phone are
nonempty (the guard does not consult the passenger domain validator);
when that guard fails the state is entirely unchanged. -/
theorem C1_passenger_advance_amended (env : BookingEnv) (s : FlowState)
    (hstep : s.currentStep = .passengerDetails) :
    ((applyEvent env (.clickAdvance .payment) s).currentStep = .payment ↔
      PassengerGuardHolds s.bookingData) ∧
    (¬ PassengerGuardHolds s.bookingData → applyEvent env (.clickAdvance .payment) s = s) := by
  have hiff : validatePassengerDetails s.bookingData = true ↔ PassengerGuardHolds s.bookingData := by
    unfold validatePassengerDetails PassengerGuardHolds jsTruthy
    simp [List.all_eq_true, Bool.and_eq_true, bne_iff_ne]
    constructor
    · rintro ⟨⟨hall, he⟩, hp⟩
      exact ⟨fun p hmem => by have := hall p hmem; tauto, he, hp⟩
    · rintro ⟨hall, he, hp⟩
      exact ⟨⟨fun p hmem => by have := hall p hmem; tauto, he⟩, hp⟩
  constructor
  · constructor
    · intro hpay
      by_cases hv : validatePassengerDetails s.bookingData = true
      · exact hiff.mp hv
      · have hs : applyEvent env (.clickAdvance .payment) s = s := by
          simp [applyEvent, clickAdvance, advanceEnabled, hstep, hv]
        rw [hs, hstep] at hpay
        exact absurd hpay (by decide)
    · intro hpgh
      have hv := hiff.mpr hpgh
      simp [applyEvent, clickAdvance, advanceEnabled, handleStepNavigation, hstep, hv]
  · intro hn
    have hv : ¬ validatePassengerDetails s.bookingData = true := fun hv => hn (hiff.mp hv)
    simp [applyEvent, clickAdvance, advanceEnabled, hstep, hv]

/-- Witness for C1 at a concrete state with a fully valid passenger. -/
theorem C1_passenger_advance_amended_witness :
    (applyEvent envEx (.clickAdvance .payment) sAfter2).currentStep = .payment :=
  (C1_passenger_advance_amended envEx sAfter2 (by decide)).1.mpr (by decide)

/-! ## C5: step-progression discipline -/

/-- C5 amended: every event obeys StepChangeSpec; in particular the step
never moves backward except by a back event to the immediate predecessor,
and the only forward moves are single-step advances with a passing guard
or the confirmation jump performed by the resolution of an outstanding
submission. -/
theorem C5_amended_steps (env : BookingEnv) (s : FlowState) (e : Event) :
    StepChangeSpec env s e := by
  obtain ⟨st, bd, pay, cf, pr, srq⟩ := s
  cases e with
  | clickAdvance target =>
    unfold StepChangeSpec applyEvent clickAdvance advanceEnabled handleStepNavigation
    cases st <;> cases target <;> simp [stepIdx] <;> split_ifs <;> simp_all [stepIdx]
  | clickBack =>
    unfold StepChangeSpec handleBack
    cases st <;> simp
  | updatePassenger index passenger =>
    unfold StepChangeSpec applyEvent
    cases st <;> simp
  | setPayment pd =>
    unfold StepChangeSpec applyEvent
    cases st <;> simp
  | setSpecial text =>
    unfold StepChangeSpec applyEvent
    cases st <;> simp
  | resolve o =>
    unfold StepChangeSpec applyEvent processBookingResolve
    cases o with
    | failure => by_cases hp : pr <;> simp [hp]
    | success =>
      by_cases hp : pr <;> simp [hp]
      cases hmk : mkBookingConfirmation env bd <;> simp [hmk]

/-- Witness for C5 amended: a concrete back press from the payment step
lands on passenger-details. -/
theorem C5_amended_steps_witness :
    (handleBack sAfter3).currentStep = .passengerDetails :=
  (C5_amended_steps envEx sAfter3 .clickBack).2.1 (by decide)

/-- C5 fails as stated: from a reachable state on passenger-details with
a submission outstanding (advance from payment, then back during
processing), the successful resolution moves the step two positions at
once, from passenger-details straight to confirmation, skipping payment. -/
theorem C5_counterexample :
    Reachable envEx sPre ∧
    sPre.currentStep = .passengerDetails ∧
    stepIdx (applyEvent envEx (.resolve .success) sPre).currentStep
      = stepIdx sPre.currentStep + 2 := by
  refine ⟨?_, by decide, by decide⟩
  exact .step .clickBack (.step (.clickAdvance .confirmation) (.step (.setPayment payGood)
    (.step (.clickAdvance .payment) (.step (.updatePassenger 0 pGood)
      (.step (.clickAdvance .passengerDetails) (.init 1))))))

/-! ## C6: the future-date validator and same-day departures -/

/-- C6 fails as stated: in a timezone west of UTC (getTimezoneOffset 300,
i.e. UTC-5) with the clock at 2025-10-12 15:00 UTC, the string denoting
the current local day passes the date validator yet futureDate rejects
it, because the input parses as UTC midnight, which lies before the local
start of the day. -/
theorem C6_counterexample :
    (validators.date "2025-10-12").isValid = true ∧
    parseDay "2025-10-12" = jsLocalDay nowEx 300 ∧
    (validators.futureDate "2025-10-12" nowEx 300).isValid = false := by
  refine ⟨by decide, by decide, by decide⟩

/-- C6 amended: futureDate accepts iff the input passes the date
validator and its UTC-midnight instant is at or after the local start of
the current day; consequently an input equal to the current local date is
accepted exactly when the timezone offset is at most zero (UTC or east of
it) and rejected west of UTC. -/
theorem C6_futureDate_amended (value : String) (now tz : Int) :
    ((validators.futureDate value now tz).isValid = true ↔
      ((validators.date value).isValid = true ∧
        startOfLocalDayUtc now tz ≤ parseInstant value)) ∧
    ((validators.date value).isValid = true → parseDay value = jsLocalDay now tz →
      ((validators.futureDate value now tz).isValid = true ↔ tz ≤ 0)) := by
  constructor
  · unfold validators.futureDate
    by_cases hd : (validators.date value).isValid <;> simp [hd]
  · intro hd hpd
    unfold validators.futureDate
    simp [hd, startOfLocalDayUtc, parseInstant, hpd]

/-- Witness for C6 amended: east of UTC (offset -60) the current local
date is accepted. -/
theorem C6_futureDate_amended_witness :
    (validators.futureDate "2025-10-12" nowEx (-60)).isValid = true :=
  ((C6_futureDate_amended "2025-10-12" nowEx (-60)).2 (by decide) (by decide)).mpr (by decide)

/-! ## C7: the flight-number pattern -/

/-- C7 fails on the code: ABC123 matches the claimed 2-or-3-letter
pattern, yet the flight validator reports the flight-number error for it,
because the compiled pattern allows exactly two letters. -/
theorem C7_counterexample :
    claimedFlightNumberPattern.test "ABC123" = true ∧
    flightNumberMessage ∈ (airlinesValidators.flight jsParseTimeEx flightEx).errors := by
  refine ⟨by decide, by decide⟩

/-- C7 amended: the flight validator reports the flight-number error
exactly when the flight number fails the compiled pattern of two
uppercase letters followed by one to four digits. -/
theorem C7_flight_number_amended (jsParseTime : String → Option Int)
    (data : airlinesValidators.FlightValidand) :
    flightNumberMessage ∈ (airlinesValidators.flight jsParseTime data).errors ↔
      flightNumberPattern.test data.flightNumber = false := by
  unfold airlinesValidators.flight validators.pattern validators.range
  cases h : flightNumberPattern.test data.flightNumber
  · simp [h]
  · simp only [h]
    have h1 : flightNumberMessage ≠ "Departure airport: " ++ airportCodeMessage := by decide
    have h2 : flightNumberMessage ≠ "Arrival airport: " ++ airportCodeMessage := by decide
    have h3 : flightNumberMessage ≠ "Invalid departure time format" := by decide
    have h4 : flightNumberMessage ≠ "Invalid arrival time format" := by decide
    have h5 : flightNumberMessage ≠ "Arrival time must be after departure time" := by decide
    have h6 : flightNumberMessage ≠ priceMessage := by decide
    rcases jsParseTime data.departureTime with _ | dt <;>
      rcases jsParseTime data.arrivalTime with _ | ar <;>
        simp <;> tauto

/-! ## C8: the booking reference shape -/

theorem char_toNat_ofNat (n : Nat) (h : n.isValidChar) : (Char.ofNat n).toNat = n := by
  unfold Char.ofNat
  rw [dif_pos h]
  unfold Char.ofNatAux Char.toNat
  simp [UInt32.toNat, BitVec.toNat_ofNatLt]

theorem jsCharUpper_base36 {c : Char} (h : isBase36Lower c = true) :
    isUpperAlnum (jsCharUpper c) = true := by
  unfold isBase36Lower at h
  simp only [Bool.or_eq_true, Bool.and_eq_true, decide_eq_true_eq] at h
  unfold jsCharUpper isUpperAlnum
  rcases h with hd | hl
  · rw [if_neg (by simp only [Bool.and_eq_true, decide_eq_true_eq, not_and]; omega)]
    simp only [Bool.or_eq_true, Bool.and_eq_true, decide_eq_true_eq]
    omega
  · rw [if_pos (by simp only [Bool.and_eq_true, decide_eq_true_eq]; exact ⟨hl.1, hl.2⟩)]
    have hv : (c.toNat - 32).isValidChar := by
      unfold Nat.isValidChar
      left
      omega
    simp only [Bool.or_eq_true, Bool.and_eq_true, decide_eq_true_eq, char_toNat_ofNat _ hv]
    omega

/-- C8 fails as stated: the booking reference produced by a successful
submission in the concrete environment is the ten-character string
ADK2J4H6G8, not an eight-character token. -/
theorem C8_counterexample :
    (applyEvent envEx (.resolve .success) sProc).confirmation.map
        (fun c => c.bookingReference) = some "ADK2J4H6G8" ∧
    ("ADK2J4H6G8" : String).length = 10 := by
  refine ⟨by decide, by decide⟩

/-- C8 amended: for any token of at most eight lowercase base-36
characters supplied by the random source, the booking reference is the
two-character prefix AD followed by the uppercased token: its length is
2 plus the token length (hence at most 10, and 10 rather than 8 in the
typical full-length case), it starts with AD, and every character is
uppercase alphanumeric. -/
theorem C8_booking_reference_amended (rand8 : String)
    (hlen : rand8.length ≤ 8) (hchars : rand8.data.all isBase36Lower = true) :
    (mkBookingReference rand8).length = 2 + rand8.length ∧
    (mkBookingReference rand8).length ≤ 10 ∧
    (mkBookingReference rand8).data.take 2 = ['A', 'D'] ∧
    (mkBookingReference rand8).data.all isUpperAlnum = true := by
  have hdata : (mkBookingReference rand8).data = 'A' :: 'D' :: rand8.data.map jsCharUpper := by
    simp [mkBookingReference, jsToUpperCase, String.data_append]
  have hlen2 : (mkBookingReference rand8).length = 2 + rand8.length := by
    have h0 : (mkBookingReference rand8).length = (mkBookingReference rand8).data.length := rfl
    have h1 : rand8.length = rand8.data.length := rfl
    rw [h0, hdata, h1]
    simp [List.length_map]
    omega
  refine ⟨hlen2, by omega, by rw [hdata]; rfl, ?_⟩
  rw [hdata]
  simp only [List.all_cons, List.all_map, Bool.and_eq_true]
  refine ⟨by decide, by decide, ?_⟩
  simp only [List.all_eq_true, Function.comp] at hchars ⊢
  intro c hc
  exact jsCharUpper_base36 (hchars c hc)

/-- Witness for C8 amended at the concrete random token. -/
theorem C8_booking_reference_amended_witness :
    (mkBookingReference "k2j4h6g8").length = 2 + ("k2j4h6g8" : String).length ∧
      (mkBookingReference "k2j4h6g8").length ≤ 10 ∧
      (mkBookingReference "k2j4h6g8").data.take 2 = ['A', 'D'] ∧
      (mkBookingReference "k2j4h6g8").data.all isUpperAlnum = true :=
  C8_booking_reference_amended "k2j4h6g8" (by decide) (by decide)
